import Mathlib

/-!
Shallow embedding of `src/opencensus/plugins/grpc/internal/server_filter.cc`
(the OpenCensus gRPC server filter).  Each C++ function relevant to the
verified properties is translated into a pure Lean function; side effects
(running chained closures, recording measurements to the stats sink,
forwarding the operation batch, logging) are made explicit as a trace of
`Effect` values returned alongside the updated per-call state.
-/

namespace OpenCensus

/-- A byte sequence, the content of a `grpc_slice`.  Byte values are kept as
naturals; the transport guarantees nothing about them here. -/
abbrev Slice := List Nat

/-- A `grpc_error *` value: `none` stands for `GRPC_ERROR_NONE` (the null
pointer), `some c` for a non-null error object (identified by `c`).
`GRPC_ERROR_REF` returns the same error value, so forwarding an error is
modelled by passing the same `GrpcError`. -/
abbrev GrpcError := Option Nat

/-- Closures (`grpc_closure *`) are modelled as opaque identifiers; running a
closure is an `Effect`. -/
abbrev Closure := Nat

/-- A non-indexed metadata element, used for the tail of a metadata batch. -/
structure MdElem where
  key : Slice
  value : Slice
  deriving Repr, DecidableEq

/-- A `grpc_metadata_batch`.  The three entries the filter looks up through
`b->idx.named` are modelled as optional named fields; all other elements of
the batch (in particular elements appended with
`grpc_metadata_batch_add_tail`) live in `rest`, in list order. -/
structure grpc_metadata_batch where
  path : Option Slice
  grpc_trace_bin : Option Slice
  grpc_tags_bin : Option Slice
  rest : List MdElem
  deriving Repr, DecidableEq

/-- `grpc_metadata_batch_add_tail`: append an element at the end of the
batch. -/
def grpc_metadata_batch_add_tail (b : grpc_metadata_batch) (e : MdElem) :
    grpc_metadata_batch :=
  { b with rest := b.rest ++ [e] }

/-- The bytes of the metadata key `"grpc-server-stats-bin"`
(`GRPC_MDSTR_GRPC_SERVER_STATS_BIN`). -/
def GRPC_MDSTR_GRPC_SERVER_STATS_BIN : Slice :=
  "grpc-server-stats-bin".data.map Char.toNat

-- Maximum size of metadata for tracing and tagging that are sent on the wire.
def kMaxStatsLen : Nat := 2046
def kMaxTracingLen : Nat := 128
-- Maximum size of server stats that are sent on the wire.
def kMaxServerStatsLen : Nat := 32

/-- The measures recorded by the server filter (from
`opencensus/plugins/grpc/internal/measures.h`). -/
inductive Measure where
  | RpcServerErrorCount
  | RpcServerRequestBytes
  | RpcServerResponseBytes
  | RpcServerServerElapsedTime
  | RpcServerRequestCount
  | RpcServerFinishedCount
  | RpcServerResponseCount
  | RpcServerStartedCount
  deriving Repr, DecidableEq

/-- The tag keys used by the server filter. -/
inductive TagKey where
  | kMethodTagKey
  | kStatusTagKey
  deriving Repr, DecidableEq

/-- Modelled from the spec: the derived tracing/tagging context
(`CensusContext`), built by `GenerateServerContext` (whose body lives in
`context_util.cc`, outside the sources examined) from the tracing blob, the
tag-set blob, a primary role and the method name.  The spec only requires
that the context be constructed from exactly these four inputs, so the model
keeps them verbatim. -/
structure CensusContext where
  trace : Slice
  tags : Slice
  primaryRole : Slice
  method : Slice
  deriving Repr, DecidableEq

/-- Modelled from the spec: `GenerateServerContext(tracing, census,
primary_role, method, out_context)` constructs the derived context from its
four inputs. -/
def GenerateServerContext (tracing census primaryRole method : Slice) :
    CensusContext :=
  { trace := tracing, tags := census, primaryRole := primaryRole,
    method := method }

/-- A `grpc::TransportStreamOpBatch` as seen by the server filter.  The four
operations the filter inspects are modelled directly; the two
`*_ready` fields are the completion closures living in the batch payload
(`op->recv_initial_metadata_ready()` and
`op->op()->payload->recv_message.recv_message_ready`), which the filter
substitutes. -/
structure TransportStreamOpBatch where
  /-- `op->recv_initial_metadata()`: the incoming initial-metadata batch,
  when the op is present. -/
  recv_initial_metadata : Option grpc_metadata_batch
  recv_initial_metadata_ready : Closure
  /-- `op->send_message()`: present or not (payload content is irrelevant to
  the filter). -/
  send_message : Bool
  /-- `op->recv_message()`: present or not. -/
  recv_message : Bool
  recv_message_ready : Closure
  /-- `op->send_trailing_metadata()`: the outgoing trailing-metadata batch,
  when the op is present. -/
  send_trailing_metadata : Option grpc_metadata_batch
  deriving Repr, DecidableEq

/-- One observable side effect of the filter code.  Measurement values are
modelled as exact rationals (the C++ sink takes `double`s). -/
inductive Effect where
  /-- `GRPC_CLOSURE_RUN(c, error)`: run the chained closure `c` with the
  given error value. -/
  | closureRun (c : Closure) (error : GrpcError)
  /-- `stats::Record(measurements, tags)`: one atomic batch submitted to the
  metrics sink. -/
  | record (measurements : List (Measure × ℚ)) (tags : List (TagKey × Slice))
  /-- `grpc_census_call_set_context`: attach the derived context to the
  call. -/
  | setContext (ctx : CensusContext)
  /-- `grpc_call_next_op`: forward the operation batch to the next pipeline
  stage. -/
  | nextOp (op : TransportStreamOpBatch)
  /-- `GRPC_LOG_IF_ERROR` observed a failure (logged, not propagated). -/
  | logError
  /-- `grpc_auth_context_release` on the call's auth context. -/
  | releaseAuthContext
  /-- `context_.EndSpan()`. -/
  | endSpan
  deriving Repr, DecidableEq

/-- The bytes of a Lean string, for tag values coming from C strings. -/
def strToBytes (s : String) : Slice :=
  s.data.map Char.toNat

/-- Modelled from the spec: the serialized form of the server-stats blob
(elapsed nanoseconds).  `ServerStatsSerialize`'s body lives outside the
sources examined; per the spec the value is the elapsed time as an 8-byte
integer, modelled little-endian in 64-bit two's complement. -/
def serializedServerStats (elapsedNs : Int) : Slice :=
  (List.range 8).map (fun i => ((elapsedNs % (2 ^ 64)).toNat >>> (8 * i)) % 256)

/-- Modelled from the spec: `ServerStatsSerialize(elapsed_ns, buf, max_len)`
encodes the elapsed nanoseconds into a buffer of at most `max_len` bytes and
returns the byte count; it must refuse (return zero length, no partial
write) if the serialized form would exceed `max_len`.  The model returns the
written buffer; the C++ return value is its length. -/
def ServerStatsSerialize (elapsedNs : Int) (maxLen : Nat) : Slice :=
  let s := serializedServerStats elapsedNs
  if s.length ≤ maxLen then s else []

/-- `GRPC_STATUS_OK`. -/
def GRPC_STATUS_OK : Nat := 0

/-- Modelled from the spec: `StatusCodeToString(status)` (body in
`grpc_plugin.cc`, outside the sources examined) yields the string form of a
final status code, per the spec's "status-as-string" tag value. -/
def StatusCodeToString (status : Nat) : String :=
  match status with
  | 0 => "OK"
  | 1 => "CANCELLED"
  | 2 => "UNKNOWN"
  | 3 => "INVALID_ARGUMENT"
  | 4 => "DEADLINE_EXCEEDED"
  | 5 => "NOT_FOUND"
  | 6 => "ALREADY_EXISTS"
  | 7 => "PERMISSION_DENIED"
  | 8 => "RESOURCE_EXHAUSTED"
  | 9 => "FAILED_PRECONDITION"
  | 10 => "ABORTED"
  | 11 => "OUT_OF_RANGE"
  | 12 => "UNIMPLEMENTED"
  | 13 => "INTERNAL"
  | 14 => "UNAVAILABLE"
  | 15 => "DATA_LOSS"
  | 16 => "UNAUTHENTICATED"
  | _ => "UNKNOWN_STATUS"

/-- The transport's final-info record for a call (`grpc_call_final_info`):
the final status and the transport stream byte totals. -/
structure grpc_call_final_info where
  final_status : Nat
  /-- outgoing payload bytes (`stats.transport_stream_stats.outgoing.data_bytes`). -/
  outgoing_data_bytes : Nat
  /-- incoming payload bytes (`stats.transport_stream_stats.incoming.data_bytes`). -/
  incoming_data_bytes : Nat
  deriving Repr, DecidableEq

/-- Modelled from the spec: `GetOutgoingDataSize(final_info)` (declared in
`grpc_plugin.h`, outside the sources examined) returns the outgoing payload
byte total of the transport's final-info record. -/
def GetOutgoingDataSize (final_info : grpc_call_final_info) : Nat :=
  final_info.outgoing_data_bytes

/-- Modelled from the spec: `GetIncomingDataSize(final_info)` (declared in
`grpc_plugin.h`, outside the sources examined) returns the incoming payload
byte total of the transport's final-info record. -/
def GetIncomingDataSize (final_info : grpc_call_final_info) : Nat :=
  final_info.incoming_data_bytes

/-- `absl::ToDoubleMilliseconds` on an integer-nanosecond duration, as an
exact rational. -/
def toDoubleMilliseconds (ns : Int) : ℚ :=
  (ns : ℚ) / 1000000

/-- server metadata elements -/
structure ServerMetadataElements where
  path : Slice
  tracing_slice : Slice
  census_proto : Slice
  deriving Repr, DecidableEq

/-- `FilterInitialMetadata(b, sml)`: copy out the values of the `path`,
`grpc-trace-bin` and `grpc-tags-bin` entries when present
(`grpc_slice_ref_internal` is a copy in the model), and remove the latter
two entries from the batch (`grpc_metadata_batch_remove` clears the named
entry).  Returns the updated batch and the updated `sml`. -/
def FilterInitialMetadata (b : grpc_metadata_batch)
    (sml : ServerMetadataElements) :
    grpc_metadata_batch × ServerMetadataElements :=
  let sml := match b.path with
    | some v => { sml with path := v }
    | none => sml
  let (b, sml) := match b.grpc_trace_bin with
    | some v => ({ b with grpc_trace_bin := none },
                 { sml with tracing_slice := v })
    | none => (b, sml)
  let (b, sml) := match b.grpc_tags_bin with
    | some v => ({ b with grpc_tags_bin := none },
                 { sml with census_proto := v })
    | none => (b, sml)
  (b, sml)

/-- The per-call observation state (`CensusServerCallData`).  Timestamps and
durations are in integer nanoseconds.  `on_done_recv_initial_metadata_` and
`on_done_recv_message_` are the filter's own substituted closures
(initialized in `Init`); `initial_on_done_recv_initial_metadata_` and
`initial_on_done_recv_message_` hold the chained original closures captured
in `StartTransportStreamOpBatch`. -/
structure CensusServerCallData where
  start_time_ : Int
  /-- `absl::Duration` default-constructs to a zero duration; set when a
  send-trailing-metadata operation passes through. -/
  elapsed_time_ : Int
  sent_message_count_ : Nat
  recv_message_count_ : Nat
  path_ : Slice
  method_ : Slice
  context_ : Option CensusContext
  on_done_recv_initial_metadata_ : Closure
  on_done_recv_message_ : Closure
  initial_on_done_recv_initial_metadata_ : Closure
  initial_on_done_recv_message_ : Closure
  deriving Repr, DecidableEq

namespace CensusServerCallData

/-- `CensusServerCallData::Init`: capture the start time and set up the two
substituted closures; counters start at zero, path/method/context are
empty. -/
def Init (now : Int) (imdClosure msgClosure : Closure) :
    CensusServerCallData :=
  { start_time_ := now
    elapsed_time_ := 0
    sent_message_count_ := 0
    recv_message_count_ := 0
    path_ := []
    method_ := []
    context_ := none
    on_done_recv_initial_metadata_ := imdClosure
    on_done_recv_message_ := msgClosure
    initial_on_done_recv_initial_metadata_ := 0
    initial_on_done_recv_message_ := 0 }

/-- `CensusServerCallData::OnDoneRecvMessageCb`: `recvMessage` is the value
of `*calld->recv_message_` at callback time (`none` models a null payload,
the final empty read).  Increments `recv_message_count_` only when the
payload is non-null, then runs the chained closure with the same error. -/
def OnDoneRecvMessageCb (calld : CensusServerCallData) (error : GrpcError)
    (recvMessage : Option Slice) : CensusServerCallData × List Effect :=
  let calld :=
    if recvMessage.isSome then
      { calld with recv_message_count_ := calld.recv_message_count_ + 1 }
    else calld
  (calld, [Effect.closureRun calld.initial_on_done_recv_message_ error])

/-- `CensusServerCallData::OnDoneRecvInitialMetadataCb`: `initialMetadata`
is the batch `calld->recv_initial_metadata_` points to.  On a non-null
error, nothing is observed and the chained closure runs with the same
error.  On `GRPC_ERROR_NONE`, the metadata is filtered, path/method are
captured, the server context is generated, one started-count measurement is
recorded, the context is attached to the call, and the chained closure runs
with the same (null) error. -/
def OnDoneRecvInitialMetadataCb (calld : CensusServerCallData)
    (error : GrpcError) (initialMetadata : grpc_metadata_batch) :
    CensusServerCallData × grpc_metadata_batch × List Effect :=
  match error with
  | some e =>
    (calld, initialMetadata,
     [Effect.closureRun calld.initial_on_done_recv_initial_metadata_
        (some e)])
  | none =>
    let sml0 : ServerMetadataElements :=
      { path := [], tracing_slice := [], census_proto := [] }
    let fr := FilterInitialMetadata initialMetadata sml0
    let sml := fr.2
    let calld := { calld with path_ := sml.path, method_ := sml.path }
    let ctx := GenerateServerContext sml.tracing_slice sml.census_proto []
        calld.method_
    let calld := { calld with context_ := some ctx }
    (calld, fr.1,
     [Effect.record [(Measure.RpcServerStartedCount, 1)]
        [(TagKey.kMethodTagKey, calld.method_)],
      Effect.setContext ctx,
      Effect.closureRun calld.initial_on_done_recv_initial_metadata_ none])

/-- `CensusServerCallData::StartTransportStreamOpBatch`: the synchronous
mid-pipeline operation handler.  `now` is `absl::Now()` in nanoseconds;
`appendOk` models whether `grpc_metadata_batch_add_tail` succeeds (its
failure is logged by `GRPC_LOG_IF_ERROR` and not propagated).  For the recv
ops the chained `*_ready` closures are captured into the call data and the
filter's own closures substituted into the batch; the batch the model's
callbacks later receive is the one carried by the op, so the C++ pointer
stores (`recv_initial_metadata_`, `recv_message_`) have no separate model
state.  Ends by forwarding the (possibly updated) batch exactly once. -/
def StartTransportStreamOpBatch (calld : CensusServerCallData)
    (op : TransportStreamOpBatch) (now : Int) (appendOk : Bool) :
    CensusServerCallData × List Effect :=
  let (calld, op) :=
    if op.recv_initial_metadata.isSome then
      ({ calld with
          initial_on_done_recv_initial_metadata_ :=
            op.recv_initial_metadata_ready },
       { op with
          recv_initial_metadata_ready := calld.on_done_recv_initial_metadata_ })
    else (calld, op)
  let calld :=
    if op.send_message then
      { calld with sent_message_count_ := calld.sent_message_count_ + 1 }
    else calld
  let (calld, op) :=
    if op.recv_message then
      ({ calld with initial_on_done_recv_message_ := op.recv_message_ready },
       { op with recv_message_ready := calld.on_done_recv_message_ })
    else (calld, op)
  let (calld, op, effs) :=
    match op.send_trailing_metadata with
    | some b =>
      let calld := { calld with elapsed_time_ := now - calld.start_time_ }
      let buf := ServerStatsSerialize calld.elapsed_time_ kMaxServerStatsLen
      if buf.length > 0 then
        if appendOk then
          (calld,
           { op with
              send_trailing_metadata := some (grpc_metadata_batch_add_tail b
                { key := GRPC_MDSTR_GRPC_SERVER_STATS_BIN, value := buf }) },
           ([] : List Effect))
        else (calld, op, [Effect.logError])
      else (calld, op, ([] : List Effect))
    | none => (calld, op, ([] : List Effect))
  (calld, effs ++ [Effect.nextOp op])

/-- `CensusServerCallData::Destroy`: release the auth context, submit the
single final measurement batch to the stats sink, release the path slice and
end the span. -/
def Destroy (calld : CensusServerCallData)
    (final_info : grpc_call_final_info) : List Effect :=
  let request_size := GetOutgoingDataSize final_info
  let response_size := GetIncomingDataSize final_info
  let elapsed_time_ms : ℚ := toDoubleMilliseconds calld.elapsed_time_
  [Effect.releaseAuthContext,
   Effect.record
     [(Measure.RpcServerErrorCount,
       if final_info.final_status = GRPC_STATUS_OK then 0 else 1),
      (Measure.RpcServerRequestBytes, (request_size : ℚ)),
      (Measure.RpcServerResponseBytes, (response_size : ℚ)),
      (Measure.RpcServerServerElapsedTime, elapsed_time_ms),
      (Measure.RpcServerRequestCount, (calld.sent_message_count_ : ℚ)),
      (Measure.RpcServerFinishedCount, 1),
      (Measure.RpcServerResponseCount, (calld.recv_message_count_ : ℚ))]
     [(TagKey.kMethodTagKey, calld.method_),
      (TagKey.kStatusTagKey,
       strToBytes (StatusCodeToString final_info.final_status))],
   Effect.endSpan]

end CensusServerCallData

/-- The sublist of `stats::Record` submissions in an effect trace. -/
def recordEffects (effs : List Effect) :
    List (List (Measure × ℚ) × List (TagKey × Slice)) :=
  effs.filterMap (fun e => match e with
    | Effect.record ms tags => some (ms, tags)
    | _ => none)

/-- The sublist of chained-closure invocations in an effect trace, as
(closure, error) pairs. -/
def closureRuns (effs : List Effect) : List (Closure × GrpcError) :=
  effs.filterMap (fun e => match e with
    | Effect.closureRun c err => some (c, err)
    | _ => none)

/-- The sublist of batches forwarded to the next pipeline stage in an effect
trace. -/
def nextOps (effs : List Effect) : List TransportStreamOpBatch :=
  effs.filterMap (fun e => match e with
    | Effect.nextOp op => some op
    | _ => none)

/-- Run a sequence of message-received events ((error, payload) pairs)
through `OnDoneRecvMessageCb`, threading the call data. -/
def runRecvMessageEvents (calld : CensusServerCallData)
    (events : List (GrpcError × Option Slice)) : CensusServerCallData :=
  events.foldl
    (fun cd ev => (CensusServerCallData.OnDoneRecvMessageCb cd ev.1 ev.2).1)
    calld

/-- Run a sequence of outgoing operation batches ((batch, now, appendOk)
triples) through `StartTransportStreamOpBatch`, threading the call data. -/
def runOpBatches (calld : CensusServerCallData)
    (ops : List (TransportStreamOpBatch × Int × Bool)) :
    CensusServerCallData :=
  ops.foldl
    (fun cd t =>
      (CensusServerCallData.StartTransportStreamOpBatch cd t.1 t.2.1 t.2.2).1)
    calld

/-- The batch `StartTransportStreamOpBatch` forwards to the next stage: the
input batch with the two recv-ready closures substituted (when the
corresponding op is present) and the server-stats entry appended to the
trailing metadata (when present, encodable and appendable). -/
def startForwardedOp (calld : CensusServerCallData)
    (op : TransportStreamOpBatch) (now : Int) (appendOk : Bool) :
    TransportStreamOpBatch :=
  { op with
    recv_initial_metadata_ready :=
      if op.recv_initial_metadata.isSome then
        calld.on_done_recv_initial_metadata_
      else op.recv_initial_metadata_ready
    recv_message_ready :=
      if op.recv_message then calld.on_done_recv_message_
      else op.recv_message_ready
    send_trailing_metadata :=
      match op.send_trailing_metadata with
      | some b =>
        if 0 < (ServerStatsSerialize (now - calld.start_time_)
            kMaxServerStatsLen).length ∧ appendOk = true then
          some (grpc_metadata_batch_add_tail b
            { key := GRPC_MDSTR_GRPC_SERVER_STATS_BIN,
              value := ServerStatsSerialize (now - calld.start_time_)
                kMaxServerStatsLen })
        else some b
      | none => none }

lemma serializedServerStats_length (ns : Int) :
    (serializedServerStats ns).length = 8 := by
  simp [serializedServerStats]

lemma ServerStatsSerialize_kMax (ns : Int) :
    ServerStatsSerialize ns kMaxServerStatsLen = serializedServerStats ns := by
  simp [ServerStatsSerialize, serializedServerStats_length,
    kMaxServerStatsLen]

namespace CensusServerCallData

lemma start_batch_eq (calld : CensusServerCallData)
    (op : TransportStreamOpBatch) (now : Int) (ok : Bool) :
    StartTransportStreamOpBatch calld op now ok =
      ({ calld with
          initial_on_done_recv_initial_metadata_ :=
            if op.recv_initial_metadata.isSome then
              op.recv_initial_metadata_ready
            else calld.initial_on_done_recv_initial_metadata_
          sent_message_count_ :=
            calld.sent_message_count_ + (if op.send_message then 1 else 0)
          initial_on_done_recv_message_ :=
            if op.recv_message then op.recv_message_ready
            else calld.initial_on_done_recv_message_
          elapsed_time_ :=
            if op.send_trailing_metadata.isSome then now - calld.start_time_
            else calld.elapsed_time_ },
       (if op.send_trailing_metadata.isSome ∧ ok = false then
          [Effect.logError]
        else []) ++ [Effect.nextOp (startForwardedOp calld op now ok)]) := by
  obtain ⟨rim, rimr, sm, rm, rmr, stm⟩ := op
  cases rim <;> cases sm <;> cases rm <;> cases stm <;> cases ok <;>
    simp [StartTransportStreamOpBatch, startForwardedOp,
      ServerStatsSerialize_kMax, serializedServerStats_length]

lemma onDoneRecvMessageCb_count (calld : CensusServerCallData)
    (error : GrpcError) (m : Option Slice) :
    (OnDoneRecvMessageCb calld error m).1.recv_message_count_ =
      calld.recv_message_count_ + (if m.isSome then 1 else 0) := by
  cases m <;> simp [OnDoneRecvMessageCb]

end CensusServerCallData

open CensusServerCallData

/-- C1: each substituted completion callback (message-received and
initial-metadata-received) invokes the original chained closure exactly once
per event, passing the upstream error value unchanged, on both the error and
the success paths. -/
theorem substituted_callbacks_chain_exactly_once_unchanged
    (calld : CensusServerCallData) (error : GrpcError) (m : Option Slice)
    (imd : grpc_metadata_batch) :
    closureRuns (OnDoneRecvMessageCb calld error m).2 =
      [(calld.initial_on_done_recv_message_, error)] ∧
    closureRuns (OnDoneRecvInitialMetadataCb calld error imd).2.2 =
      [(calld.initial_on_done_recv_initial_metadata_, error)] := by
  constructor
  · cases m <;> simp [OnDoneRecvMessageCb, closureRuns]
  · cases error <;>
      simp [OnDoneRecvInitialMetadataCb, closureRuns]

/-- C2: the substituted initial-metadata callback is a two-branch
transition.  On an upstream error the state and batch are untouched and the
only effect is chaining the original closure with that same error.  On
success it filters the metadata, derives the method name from the path,
builds the context from (tracing blob, tag-set blob, empty primary role,
method name), records exactly one RPC-started count tagged by method,
attaches the context to the call, and chains the original closure with the
original (no-error) status. -/
theorem recv_initial_metadata_two_branch_transition
    (calld : CensusServerCallData) (imd : grpc_metadata_batch) :
    (∀ e, OnDoneRecvInitialMetadataCb calld (some e) imd =
      (calld, imd,
       [Effect.closureRun calld.initial_on_done_recv_initial_metadata_
          (some e)])) ∧
    OnDoneRecvInitialMetadataCb calld none imd =
      ((let sml := (FilterInitialMetadata imd
          { path := [], tracing_slice := [], census_proto := [] }).2
        { calld with
            path_ := sml.path
            method_ := sml.path
            context_ := some (GenerateServerContext sml.tracing_slice
              sml.census_proto [] sml.path) }),
       (FilterInitialMetadata imd
          { path := [], tracing_slice := [], census_proto := [] }).1,
       (let sml := (FilterInitialMetadata imd
          { path := [], tracing_slice := [], census_proto := [] }).2
        [Effect.record [(Measure.RpcServerStartedCount, 1)]
           [(TagKey.kMethodTagKey, sml.path)],
         Effect.setContext (GenerateServerContext sml.tracing_slice
           sml.census_proto [] sml.path),
         Effect.closureRun calld.initial_on_done_recv_initial_metadata_
           none])) := by
  constructor
  · intro e
    simp [OnDoneRecvInitialMetadataCb]
  · simp [OnDoneRecvInitialMetadataCb]

/-- C5: the metadata extractor copies out the byte content of the tracing
and tag-set entries when present and removes those two entries from the
batch; the path entry is copied but left in the batch, and the rest of the
batch is untouched; an absent entry is not an error and yields the empty
value initialized by the caller. -/
theorem filter_initial_metadata_extracts_and_strips
    (b : grpc_metadata_batch) :
    (FilterInitialMetadata b
        { path := [], tracing_slice := [], census_proto := [] }).1 =
      { b with grpc_trace_bin := none, grpc_tags_bin := none } ∧
    (FilterInitialMetadata b
        { path := [], tracing_slice := [], census_proto := [] }).2 =
      { path := b.path.getD []
        tracing_slice := b.grpc_trace_bin.getD []
        census_proto := b.grpc_tags_bin.getD [] } := by
  obtain ⟨p, tr, tg, rest⟩ := b
  cases p <;> cases tr <;> cases tg <;>
    simp [FilterInitialMetadata]

/-- C3: at call destruction exactly one measurement batch is submitted,
holding error-count (0 iff the final status is OK), request bytes, response
bytes, elapsed time in fractional milliseconds, request count (sent
messages), finished count 1 and response count (received messages), tagged
with the method and the string form of the final status; `elapsed_time_`
starts at zero and is only set by a send-trailing-metadata operation; and no
accumulated measurement is emitted by any earlier handler (the only earlier
record is the started count at initial metadata). -/
theorem destroy_emits_single_final_batch
    (calld : CensusServerCallData) (fi : grpc_call_final_info) :
    recordEffects (Destroy calld fi) =
      [([(Measure.RpcServerErrorCount,
          if fi.final_status = GRPC_STATUS_OK then 0 else 1),
         (Measure.RpcServerRequestBytes, (GetOutgoingDataSize fi : ℚ)),
         (Measure.RpcServerResponseBytes, (GetIncomingDataSize fi : ℚ)),
         (Measure.RpcServerServerElapsedTime,
          toDoubleMilliseconds calld.elapsed_time_),
         (Measure.RpcServerRequestCount, (calld.sent_message_count_ : ℚ)),
         (Measure.RpcServerFinishedCount, 1),
         (Measure.RpcServerResponseCount, (calld.recv_message_count_ : ℚ))],
        [(TagKey.kMethodTagKey, calld.method_),
         (TagKey.kStatusTagKey,
          strToBytes (StatusCodeToString fi.final_status))])] ∧
    (∀ now a b, (Init now a b).elapsed_time_ = 0) ∧
    toDoubleMilliseconds 0 = 0 ∧
    (∀ cd (op : TransportStreamOpBatch) now ok,
      ((StartTransportStreamOpBatch cd
          { op with send_trailing_metadata := none } now ok).1).elapsed_time_ =
        cd.elapsed_time_) ∧
    (∀ cd e m, recordEffects (OnDoneRecvMessageCb cd e m).2 = []) ∧
    (∀ cd op now ok,
      recordEffects (StartTransportStreamOpBatch cd op now ok).2 = []) ∧
    (∀ cd e imd,
      recordEffects (OnDoneRecvInitialMetadataCb cd (some e) imd).2.2 = []) ∧
    (∀ cd imd,
      recordEffects (OnDoneRecvInitialMetadataCb cd none imd).2.2 =
        [([(Measure.RpcServerStartedCount, 1)],
          [(TagKey.kMethodTagKey,
            (FilterInitialMetadata imd
              { path := [], tracing_slice := [],
                census_proto := [] }).2.path)])]) := by
  refine ⟨?_, ?_, ?_, ?_, ?_, ?_, ?_, ?_⟩
  · simp [Destroy, recordEffects]
  · intro now a b
    simp [Init]
  · simp [toDoubleMilliseconds]
  · intro cd op now ok
    simp [start_batch_eq]
  · intro cd e m
    cases m <;> simp [OnDoneRecvMessageCb, recordEffects]
  · intro cd op now ok
    rw [start_batch_eq]
    rcases op.send_trailing_metadata.isSome with _ | _ <;> cases ok <;>
      simp [recordEffects]
  · intro cd e imd
    simp [OnDoneRecvInitialMetadataCb, recordEffects]
  · intro cd imd
    simp [OnDoneRecvInitialMetadataCb, recordEffects]

/-- C4: the server-stats encoder refuses (zero length, no partial write)
when the serialized form would exceed the ceiling; when an op batch carries
send-trailing-metadata, `elapsed_time_` becomes now minus start time, the
encoder is invoked with the 32-byte ceiling (its output fits the ceiling),
the entry is appended to the trailing metadata exactly when the encoded
length is non-zero and the append succeeds, and an append failure only logs
— the batch is still forwarded. -/
theorem server_stats_trailing_encoding :
    (∀ (ns : Int) (maxLen : Nat), maxLen < (serializedServerStats ns).length →
      ServerStatsSerialize ns maxLen = []) ∧
    (∀ (calld : CensusServerCallData) (op : TransportStreamOpBatch)
        (b : grpc_metadata_batch) (now : Int) (ok : Bool),
      (StartTransportStreamOpBatch calld
          { op with send_trailing_metadata := some b } now
          ok).1.elapsed_time_ = now - calld.start_time_ ∧
      (StartTransportStreamOpBatch calld
          { op with send_trailing_metadata := some b } now ok).2 =
        (if ok = false then [Effect.logError] else []) ++
          [Effect.nextOp (startForwardedOp calld
            { op with send_trailing_metadata := some b } now ok)] ∧
      (startForwardedOp calld { op with send_trailing_metadata := some b }
          now ok).send_trailing_metadata =
        (if 0 < (ServerStatsSerialize (now - calld.start_time_)
              kMaxServerStatsLen).length ∧ ok = true then
          some (grpc_metadata_batch_add_tail b
            { key := GRPC_MDSTR_GRPC_SERVER_STATS_BIN,
              value := ServerStatsSerialize (now - calld.start_time_)
                kMaxServerStatsLen })
        else some b) ∧
      (ServerStatsSerialize (now - calld.start_time_)
          kMaxServerStatsLen).length ≤ kMaxServerStatsLen) := by
  constructor
  · intro ns maxLen h
    simp only [ServerStatsSerialize]
    rw [if_neg]
    omega
  · intro calld op b now ok
    refine ⟨?_, ?_, ?_, ?_⟩
    · simp [start_batch_eq]
    · rw [start_batch_eq]
      cases ok <;> simp
    · simp [startForwardedOp]
    · rw [ServerStatsSerialize_kMax, serializedServerStats_length,
        kMaxServerStatsLen]
      omega

/-- Witness for C4: at 8-byte serialized stats and a 4-byte ceiling the
encoder refuses with an empty output. -/
theorem server_stats_trailing_encoding_witness :
    4 < (serializedServerStats 0).length ∧ ServerStatsSerialize 0 4 = [] :=
  ⟨by decide, server_stats_trailing_encoding.1 0 4 (by decide)⟩

/-- C6: over any sequence of message-received events,
`recv_message_count_` grows by exactly the number of events whose payload
was non-null (a null final read leaves it unchanged), and no other handler
changes the counter. -/
theorem recv_message_count_counts_nonnull
    (calld : CensusServerCallData)
    (events : List (GrpcError × Option Slice)) :
    (runRecvMessageEvents calld events).recv_message_count_ =
      calld.recv_message_count_ +
        (events.filter (fun ev => ev.2.isSome)).length ∧
    (∀ cd op now ok,
      (StartTransportStreamOpBatch cd op now ok).1.recv_message_count_ =
        cd.recv_message_count_) ∧
    (∀ cd e imd,
      (OnDoneRecvInitialMetadataCb cd e imd).1.recv_message_count_ =
        cd.recv_message_count_) := by
  refine ⟨?_, ?_, ?_⟩
  · induction events generalizing calld with
    | nil => simp [runRecvMessageEvents]
    | cons ev evs ih =>
      have hrun : runRecvMessageEvents calld (ev :: evs) =
          runRecvMessageEvents
            ((OnDoneRecvMessageCb calld ev.1 ev.2).1) evs := rfl
      rw [hrun, ih, onDoneRecvMessageCb_count]
      cases h : ev.2 <;> simp [List.filter_cons, h]
      omega
  · intro cd op now ok
    simp [start_batch_eq]
  · intro cd e imd
    cases e <;> simp [OnDoneRecvInitialMetadataCb]

/-- C7: over any sequence of outgoing operation batches,
`sent_message_count_` grows by exactly the number of batches carrying a
send-message operation (counted as the batch passes through, before any
send outcome exists), and no other handler changes the counter. -/
theorem sent_message_count_counts_send_batches
    (calld : CensusServerCallData)
    (ops : List (TransportStreamOpBatch × Int × Bool)) :
    (runOpBatches calld ops).sent_message_count_ =
      calld.sent_message_count_ +
        (ops.filter (fun t => t.1.send_message)).length ∧
    (∀ cd e m,
      (OnDoneRecvMessageCb cd e m).1.sent_message_count_ =
        cd.sent_message_count_) ∧
    (∀ cd e imd,
      (OnDoneRecvInitialMetadataCb cd e imd).1.sent_message_count_ =
        cd.sent_message_count_) := by
  refine ⟨?_, ?_, ?_⟩
  · induction ops generalizing calld with
    | nil => simp [runOpBatches]
    | cons t ts ih =>
      have hrun : runOpBatches calld (t :: ts) =
          runOpBatches
            ((StartTransportStreamOpBatch calld t.1 t.2.1 t.2.2).1) ts := rfl
      rw [hrun, ih, start_batch_eq]
      cases h : t.1.send_message <;> simp [List.filter_cons, h]
      omega
  · intro cd e m
    cases m <;> simp [OnDoneRecvMessageCb]
  · intro cd e imd
    cases e <;> simp [OnDoneRecvInitialMetadataCb]

/-- C8 fails as stated: at a concrete batch carrying only a
recv-initial-metadata op (so no server-stats entry is appended), the batch
forwarded to the next stage differs from the input batch — its
recv-initial-metadata-ready closure has been substituted (55 became the
filter's own closure 7), so the batch is not forwarded unmodified except for
the appended trailing entry. -/
theorem op_batch_forwarded_unmodified_counterexample :
    nextOps (StartTransportStreamOpBatch (Init 0 7 8)
        { recv_initial_metadata := some
            { path := none, grpc_trace_bin := none, grpc_tags_bin := none,
              rest := [] }
          recv_initial_metadata_ready := 55
          send_message := false
          recv_message := false
          recv_message_ready := 66
          send_trailing_metadata := none } 0 true).2 =
      [{ recv_initial_metadata := some
            { path := none, grpc_trace_bin := none, grpc_tags_bin := none,
              rest := [] }
         recv_initial_metadata_ready := 7
         send_message := false
         recv_message := false
         recv_message_ready := 66
         send_trailing_metadata := none }] ∧
    ({ recv_initial_metadata := some
          { path := none, grpc_trace_bin := none, grpc_tags_bin := none,
            rest := [] }
       recv_initial_metadata_ready := 7
       send_message := false
       recv_message := false
       recv_message_ready := 66
       send_trailing_metadata := none } : TransportStreamOpBatch) ≠
      { recv_initial_metadata := some
          { path := none, grpc_trace_bin := none, grpc_tags_bin := none,
            rest := [] }
        recv_initial_metadata_ready := 55
        send_message := false
        recv_message := false
        recv_message_ready := 66
        send_trailing_metadata := none } := by
  constructor
  · rw [start_batch_eq]
    simp [nextOps, startForwardedOp, Init]
  · decide

/-- C8 amended: every op batch is forwarded to the next stage exactly once,
unmodified except for the possibly-appended server-stats trailing-metadata
entry and the substitution of the recv-initial-metadata-ready and
recv-message-ready completion closures (when the corresponding recv op is
present), regardless of which conditions the batch triggered. -/
theorem op_batch_forwarded_exactly_once
    (calld : CensusServerCallData) (op : TransportStreamOpBatch)
    (now : Int) (ok : Bool) :
    nextOps (StartTransportStreamOpBatch calld op now ok).2 =
      [startForwardedOp calld op now ok] ∧
    (startForwardedOp calld op now ok).recv_initial_metadata =
      op.recv_initial_metadata ∧
    (startForwardedOp calld op now ok).send_message = op.send_message ∧
    (startForwardedOp calld op now ok).recv_message = op.recv_message ∧
    ((startForwardedOp calld op now ok).send_trailing_metadata =
        op.send_trailing_metadata ∨
      (∃ b, op.send_trailing_metadata = some b ∧
        (startForwardedOp calld op now ok).send_trailing_metadata =
          some (grpc_metadata_batch_add_tail b
            { key := GRPC_MDSTR_GRPC_SERVER_STATS_BIN,
              value := ServerStatsSerialize (now - calld.start_time_)
                kMaxServerStatsLen }))) ∧
    (startForwardedOp calld op now ok).recv_initial_metadata_ready =
      (if op.recv_initial_metadata.isSome then
        calld.on_done_recv_initial_metadata_
      else op.recv_initial_metadata_ready) ∧
    (startForwardedOp calld op now ok).recv_message_ready =
      (if op.recv_message then calld.on_done_recv_message_
      else op.recv_message_ready) := by
  refine ⟨?_, ?_, ?_, ?_, ?_, ?_, ?_⟩
  · rw [start_batch_eq]
    rcases op.send_trailing_metadata.isSome with _ | _ <;> cases ok <;>
      simp [nextOps]
  · simp [startForwardedOp]
  · simp [startForwardedOp]
  · simp [startForwardedOp]
  · cases h : op.send_trailing_metadata with
    | none => left; simp [startForwardedOp, h]
    | some b =>
      by_cases hc : 0 < (ServerStatsSerialize (now - calld.start_time_)
          kMaxServerStatsLen).length ∧ ok = true
      · right
        exact ⟨b, rfl, by simp [startForwardedOp, h, hc]⟩
      · left
        simp [startForwardedOp, h, hc]
  · simp [startForwardedOp]
  · simp [startForwardedOp]

/-- C9: even when the initial-metadata event fires with an error, the
observation state is left exactly as initialized (method empty), no started
measurement is recorded, and call destruction still submits the one final
batch, with the method tag equal to the empty string. -/
theorem destroy_unconditional_without_initial_metadata
    (now : Int) (a b : Closure) (e : Nat) (imd : grpc_metadata_batch)
    (fi : grpc_call_final_info) :
    (OnDoneRecvInitialMetadataCb (Init now a b) (some e) imd).1 =
      Init now a b ∧
    recordEffects
        (OnDoneRecvInitialMetadataCb (Init now a b) (some e) imd).2.2 = [] ∧
    recordEffects (Destroy (Init now a b) fi) =
      [([(Measure.RpcServerErrorCount,
          if fi.final_status = GRPC_STATUS_OK then 0 else 1),
         (Measure.RpcServerRequestBytes, (fi.outgoing_data_bytes : ℚ)),
         (Measure.RpcServerResponseBytes, (fi.incoming_data_bytes : ℚ)),
         (Measure.RpcServerServerElapsedTime, 0),
         (Measure.RpcServerRequestCount, 0),
         (Measure.RpcServerFinishedCount, 1),
         (Measure.RpcServerResponseCount, 0)],
        [(TagKey.kMethodTagKey, ([] : Slice)),
         (TagKey.kStatusTagKey,
          strToBytes (StatusCodeToString fi.final_status))])] := by
  refine ⟨?_, ?_, ?_⟩
  · simp [OnDoneRecvInitialMetadataCb]
  · simp [OnDoneRecvInitialMetadataCb, recordEffects]
  · simp [Destroy, recordEffects, Init, GetOutgoingDataSize,
      GetIncomingDataSize, toDoubleMilliseconds]

/-- C10: in the final batch, request bytes come from the final-info record's
outgoing payload size and response bytes from its incoming payload size,
mirroring request count = sent messages and response count = received
messages. -/
theorem final_batch_byte_attribution
    (calld : CensusServerCallData) (fi : grpc_call_final_info) :
    GetOutgoingDataSize fi = fi.outgoing_data_bytes ∧
    GetIncomingDataSize fi = fi.incoming_data_bytes ∧
    recordEffects (Destroy calld fi) =
      [([(Measure.RpcServerErrorCount,
          if fi.final_status = GRPC_STATUS_OK then 0 else 1),
         (Measure.RpcServerRequestBytes, (fi.outgoing_data_bytes : ℚ)),
         (Measure.RpcServerResponseBytes, (fi.incoming_data_bytes : ℚ)),
         (Measure.RpcServerServerElapsedTime,
          toDoubleMilliseconds calld.elapsed_time_),
         (Measure.RpcServerRequestCount, (calld.sent_message_count_ : ℚ)),
         (Measure.RpcServerFinishedCount, 1),
         (Measure.RpcServerResponseCount, (calld.recv_message_count_ : ℚ))],
        [(TagKey.kMethodTagKey, calld.method_),
         (TagKey.kStatusTagKey,
          strToBytes (StatusCodeToString fi.final_status))])] := by
  refine ⟨rfl, rfl, ?_⟩
  simp [Destroy, recordEffects, GetOutgoingDataSize, GetIncomingDataSize]

end OpenCensus
